import Mathlib

/-!
Shallow embedding of the Telegram trading bot (src/index.js and src/oldswap.js).

The two source files implement the same bot in two variants:
* `index.js`   — single-shot `/buy <token> <amount>` flow using the Jupiter
  "Ultra" API (order / execute / balances).
* `oldswap.js` — multi-turn `/buy` flow (token address, then amount) using the
  Jupiter quote/swap API, with explicit retry loops and a per-user
  conversation-state map (`userStates`).

External services (Privy custody, Jupiter, Solana RPC, the filesystem) are
modelled as oracles supplied in an environment record; handlers are pure
functions from the environment and inputs to the list of observable events
(messages sent, external calls made) and, for the stateful variant, the updated
conversation-state store.

JavaScript numbers are modelled by `JSNum`: NaN, the two infinities, and finite
values as exact rationals.  This captures the control flow of `isNaN`,
comparisons, `Math.floor`, `toFixed`, and `parseFloat` on the decimal inputs
the bot receives.
-/

deriving instance DecidableEq for Except

namespace TradingBot

abbrev UserId := Nat
abbrev WalletId := String
abbrev Addr := String

/-- Model of a JavaScript number: NaN, ±Infinity, or a finite value
(represented exactly as a rational). -/
inductive JSNum
  | nan
  | inf
  | ninf
  | fin (q : ℚ)
  deriving DecidableEq

def JSNum.isNaN : JSNum → Bool
  | .nan => true
  | _ => false

/-- JavaScript `<` on numbers: any comparison with NaN is false.
(`Rat.blt` is the kernel-computable strict order on `ℚ`.) -/
def jsLt : JSNum → JSNum → Bool
  | .fin a, .fin b => Rat.blt a b
  | .fin _, .inf => true
  | .ninf, .fin _ => true
  | .ninf, .inf => true
  | _, _ => false

/-- JavaScript `<=` on numbers: any comparison with NaN is false. -/
def jsLe : JSNum → JSNum → Bool
  | .nan, _ => false
  | _, .nan => false
  | .ninf, _ => true
  | _, .inf => true
  | .inf, _ => false
  | _, .ninf => false
  | .fin a, .fin b => !Rat.blt b a

/-- JavaScript falsiness of a number (`0`, `-0` and `NaN` are falsy). -/
def jsFalsy : JSNum → Bool
  | .nan => true
  | .fin q => q.num == 0
  | _ => false

/-- Model of `x * 1e9` (the scale used for SOL → lamports);
`Rat.divInt (a.num * 10⁹) a.den = a * 10⁹`. -/
def jsMul1e9 : JSNum → JSNum
  | .fin a => .fin (Rat.divInt (a.num * 1000000000) (a.den : ℤ))
  | .nan => .nan
  | .inf => .inf
  | .ninf => .ninf

/-- Model of `x / 1e9` (lamports → SOL in `getSolBalance`). -/
def jsDiv1e9 : JSNum → JSNum
  | .fin a => .fin (Rat.divInt a.num ((a.den : ℤ) * 1000000000))
  | .nan => .nan
  | .inf => .inf
  | .ninf => .ninf

/-- Model of `Math.floor`. -/
def jsFloor : JSNum → JSNum
  | .fin a => .fin (Rat.divInt (Rat.floor a) 1)
  | .nan => .nan
  | .inf => .inf
  | .ninf => .ninf

/-- Left-pad the decimal digits of `n` with zeros to width `k`. -/
def padZeros (k : Nat) (n : Nat) : String :=
  let s := toString n
  String.mk (List.replicate (k - s.length) '0') ++ s

/-- `toFixed(4)` for a nonnegative rational: round half up at the fourth
decimal place; `(q.num·20000 + q.den)/(2·q.den) = q·10⁴ + 1/2`. -/
def ratToFixed4Nonneg (q : ℚ) : String :=
  let n : Nat := (Rat.floor (Rat.divInt (q.num * 20000 + (q.den : ℤ)) (2 * (q.den : ℤ)))).toNat
  toString (n / 10000) ++ "." ++ padZeros 4 (n % 10000)

/-- Model of JavaScript `Number.prototype.toFixed(4)`. -/
def toFixed4 : JSNum → String
  | .nan => "NaN"
  | .inf => "Infinity"
  | .ninf => "-Infinity"
  | .fin q => if q.num < 0 then "-" ++ ratToFixed4Nonneg (-q) else ratToFixed4Nonneg q

/-- Shortest decimal rendering of a nonnegative rational whose denominator
divides a power of ten (the values the bot actually prints); falls back to a
fraction rendering otherwise. -/
def ratDecimalNonneg (q : ℚ) : String :=
  match (List.range 21).find? (fun k => (10 : ℕ) ^ k % q.den == 0) with
  | some 0 => toString q.num.toNat
  | some (k + 1) =>
    let n := q.num.toNat * ((10 : ℕ) ^ (k + 1) / q.den)
    toString (n / 10 ^ (k + 1)) ++ "." ++ padZeros (k + 1) (n % 10 ^ (k + 1))
  | none => toString q.num.toNat ++ "/" ++ toString q.den

/-- Model of JavaScript number-to-string conversion (template literals such as
`${amount}`), for the decimal-exact values arising in this program. -/
def jsNumToString : JSNum → String
  | .nan => "NaN"
  | .inf => "Infinity"
  | .ninf => "-Infinity"
  | .fin q => if q.num < 0 then "-" ++ ratDecimalNonneg (-q) else ratDecimalNonneg q

/-- Numeric value of a list of decimal digit characters. -/
def digitsVal (ds : List Char) : Nat :=
  ds.foldl (fun a c => a * 10 + (c.toNat - 48)) 0

/-- `q · 10^k` through kernel-computable primitives. -/
def qMulPow10 (q : ℚ) (k : Nat) : ℚ :=
  Rat.divInt (q.num * (10 : ℤ) ^ k) (q.den : ℤ)

/-- `q / 10^k` through kernel-computable primitives. -/
def qDivPow10 (q : ℚ) (k : Nat) : ℚ :=
  Rat.divInt q.num ((q.den : ℤ) * (10 : ℤ) ^ k)

/-- Exponent portion of a JavaScript float literal (after `e`/`E`). -/
def expPart (base : ℚ) (cs : List Char) : ℚ :=
  let p : Bool × List Char :=
    match cs with
    | '-' :: r => (true, r)
    | '+' :: r => (false, r)
    | r => (false, r)
  let ds := p.2.takeWhile Char.isDigit
  if ds.isEmpty then base
  else if p.1 then qDivPow10 base (digitsVal ds)
  else qMulPow10 base (digitsVal ds)

/-- Unsigned decimal portion of a JavaScript float literal: digits, optional
fraction, optional exponent; `none` when no digits are present.  The value of
`dd.ff` is `(dd · 10^|ff| + ff) / 10^|ff|`. -/
def parseUnsigned (cs : List Char) : Option ℚ :=
  let intDigits := cs.takeWhile Char.isDigit
  let rest := cs.dropWhile Char.isDigit
  let fracAndRest : List Char × List Char :=
    match rest with
    | '.' :: r => (r.takeWhile Char.isDigit, r.dropWhile Char.isDigit)
    | _ => ([], rest)
  if intDigits.isEmpty && fracAndRest.1.isEmpty then none
  else
    let base : ℚ :=
      Rat.divInt
        ((digitsVal intDigits : ℤ) * (10 : ℤ) ^ fracAndRest.1.length + (digitsVal fracAndRest.1 : ℤ))
        ((10 : ℤ) ^ fracAndRest.1.length)
    some
      (match fracAndRest.2 with
        | 'e' :: r => expPart base r
        | 'E' :: r => expPart base r
        | _ => base)

/-- Model of JavaScript `parseFloat`: skip whitespace, optional sign, the
`Infinity` literal or the longest decimal-number front portion; `NaN` when no
number can be read. -/
def parseFloat (s : String) : JSNum :=
  let cs := s.toList.dropWhile (fun c => c == ' ' || c == '\t' || c == '\n' || c == '\r')
  let p : Bool × List Char :=
    match cs with
    | '-' :: r => (true, r)
    | '+' :: r => (false, r)
    | r => (false, r)
  match p.2 with
  | 'I' :: 'n' :: 'f' :: 'i' :: 'n' :: 'i' :: 't' :: 'y' :: _ =>
    if p.1 then .ninf else .inf
  | rest =>
    match parseUnsigned rest with
    | none => .nan
    | some q => .fin (if p.1 then -q else q)

/-- The amount-validation test used by both buy flows:
`isNaN(amount) || amount <= 0`. -/
def amountBad (a : JSNum) : Bool :=
  a.isNaN || jsLe a (.fin 0)

/-- Base-58 digit value of a character (Bitcoin/Solana alphabet). -/
def b58Value (c : Char) : Option Nat :=
  "123456789ABCDEFGHJKLMNPQRSTUVWXYZabcdefghijkmnopqrstuvwxyz".toList.findIdx?
    (fun d => d == c)

/-- Big-endian base-58 value of a string; `none` on any invalid character. -/
def b58DigitsVal (cs : List Char) : Option Nat :=
  cs.foldl
    (fun acc c =>
      match acc, b58Value c with
      | some v, some d => some (v * 58 + d)
      | _, _ => none)
    (some 0)

/-- Number of bytes in the big-endian representation of `v` (fuelled). -/
def byteLen (fuel : Nat) (v : Nat) : Nat :=
  match fuel with
  | 0 => 0
  | f + 1 => if v = 0 then 0 else byteLen f (v / 256) + 1

/-- Model of `new PublicKey(s)` succeeding: `s` is base-58 and decodes to
exactly 32 bytes (leading `'1'` characters are leading zero bytes). -/
def validPubkey (s : String) : Bool :=
  match b58DigitsVal s.toList with
  | none => false
  | some v =>
    (s.toList.takeWhile (fun c => c == '1')).length + byteLen 64 v == 32

/-- Substring test: `pat` occurs at the front of `s`. -/
def listBeg : List Char → List Char → Bool
  | [], _ => true
  | _ :: _, [] => false
  | p :: ps, c :: cs => p == c && listBeg ps cs

/-- Substring test on character lists. -/
def listContains (pat : List Char) : List Char → Bool
  | [] => listBeg pat []
  | c :: cs => listBeg pat (c :: cs) || listContains pat cs

/-- Model of JavaScript `s.includes(pat)`. -/
def containsSub (s pat : String) : Bool :=
  listContains pat.toList s.toList

/-! ## Errors, messages and observable events -/

/-- A thrown/rejected JavaScript error as the handlers inspect it:
`error.message` and `error.response?.data?.error`. -/
structure JsError where
  message : String
  responseError : Option String
  deriving DecidableEq

/-- The user-facing messages the bot sends, with the dynamically rendered
strings that the claims talk about. -/
inductive Msg
  | needStart
  | promptAmount
  | invalidToken
  | invalidAmount
  | insufficientBalance (balanceStr : String) (amountStr : String)
  | signedProcessing
  | signedProcessingOld
  | swapSuccess (signature : String)
  | swapSuccessOld (signature : String)
  | slippage
  | vendorError (text : String)
  | genericError
  | vendorErrorOld (text : String)
  | genericErrorOld
  | welcome (address : String)
  | walletCreateError
  | walletAccessError
  deriving DecidableEq

/-- Observable actions of a handler run: messages sent and external calls
made, in order. -/
inductive Event
  | sent (m : Msg)
  | balancesCall (addr : Addr)
  | orderCall (inputMint outputMint : String) (lamports : JSNum) (taker : Addr)
  | signCall (walletId : WalletId)
  | executeCall (requestId : String)
  | getSolBalanceCall (addr : Addr)
  | quoteAttemptCall (inputMint outputMint : String) (lamports : JSNum)
  | swapCall
  | sendRawAttemptCall
  | confirmCall (signature : String)
  | sleep (ms : Nat)
  deriving DecidableEq

/-- Does the trace request a priced order (either aggregator mode)? -/
def hasOrderCall (tr : List Event) : Bool :=
  tr.any fun e =>
    match e with
    | .orderCall _ _ _ _ => true
    | .quoteAttemptCall _ _ _ => true
    | _ => false

/-- Does the trace perform a balance lookup (either variant)? -/
def hasBalanceCall (tr : List Event) : Bool :=
  tr.any fun e =>
    match e with
    | .balancesCall _ => true
    | .getSolBalanceCall _ => true
    | _ => false

/-- A custody wallet as returned by the wallet API. -/
structure Wallet where
  id : WalletId
  address : Addr
  deriving DecidableEq

/-- One token entry of a Jupiter Ultra balances response: the raw amount as a
string and the UI amount as a number. -/
structure TokenBal where
  amount : String
  uiAmount : JSNum
  deriving DecidableEq

def SOL_MINT : String := "So11111111111111111111111111111111111111112"

/-! ## Retry policy (`oldswap.js` quote and `sendRawTransaction` loops) -/

/-- Delay between retry attempts: `setTimeout(resolve, 1000)`. -/
def retrySleepMs : Nat := 1000

/-- Result of a retry loop together with the attempts made and the 1-second
sleeps taken. -/
structure RetryResult (α : Type) where
  result : Except JsError α
  attempts : Nat
  sleeps : Nat
  deriving DecidableEq

/-- The `while (retries > 0) { try { ...; break } catch { retries--; if
(retries === 0) throw; sleep(1000) } }` loop.  `f i` is the outcome of the
`i`-th attempt, `r` the remaining `retries`, `i` attempts so far, `s` sleeps
so far.  The `r = 0` base case is unreachable from `retries = 3`. -/
def retryWhile {α : Type} (f : Nat → Except JsError α) : Nat → Nat → Nat → RetryResult α
  | 0, i, s => ⟨.error ⟨"", none⟩, i, s⟩
  | r + 1, i, s =>
    match f i with
    | .ok a => ⟨.ok a, i + 1, s⟩
    | .error e => if r = 0 then ⟨.error e, i + 1, s⟩ else retryWhile f r (i + 1) (s + 1)

/-- The retry policy as configured at both call sites: `let retries = 3`. -/
def retry3 {α : Type} (f : Nat → Except JsError α) : RetryResult α :=
  retryWhile f 3 0 0

/-! ## The single-shot `/buy` handler (`index.js`) -/

/-- A Jupiter Ultra order response. -/
structure UltraOrder where
  transaction : String
  requestId : String
  outAmount : JSNum
  deriving DecidableEq

/-- Oracles for every external call the `index.js` buy handler makes. -/
structure BuyEnv where
  walletMappings : UserId → Option WalletId
  getWallet : WalletId → Except JsError Wallet
  getBalances : Addr → Except JsError (List (String × TokenBal))
  getOrder : String → String → JSNum → Addr → Except JsError UltraOrder
  signTransaction : WalletId → String → Except JsError String
  executeOrder : String → String → Except JsError String

/-- The `catch` discrimination of the buy flow in `index.js`:
`0x1771` in the message → slippage text; structured vendor error → relayed;
otherwise generic apology. -/
def catchBuyNew (e : JsError) : Msg :=
  if containsSub e.message "0x1771" then .slippage
  else
    match e.responseError with
    | some t => .vendorError t
    | none => .genericError

/-- `balances.SOL` field access on the balances object. -/
def lookupBal (balances : List (String × TokenBal)) (sym : String) : Option TokenBal :=
  (balances.find? (fun p => p.1 == sym)).map Prod.snd

/-- `balances.SOL?.uiAmount || 0`: missing entry or falsy uiAmount gives 0. -/
def solBalanceOf (balances : List (String × TokenBal)) : JSNum :=
  match lookupBal balances "SOL" with
  | none => .fin 0
  | some tb => if jsFalsy tb.uiAmount then .fin 0 else tb.uiAmount

/-- The `/buy <token> <amount>` handler of `index.js`, as the trace of
messages sent and external calls made. -/
def buyNew (env : BuyEnv) (userId : UserId) (tokenMint : String) (rawAmount : String) :
    List Event :=
  let amount := parseFloat rawAmount
  match env.walletMappings userId with
  | none => [.sent .needStart]
  | some walletId =>
    if !validPubkey tokenMint then [.sent .invalidToken]
    else if amountBad amount then [.sent .invalidAmount]
    else
      match env.getWallet walletId with
      | .error e => [.sent (catchBuyNew e)]
      | .ok wallet =>
        .balancesCall wallet.address ::
          match env.getBalances wallet.address with
          | .error e => [.sent (catchBuyNew e)]
          | .ok balances =>
            let solBalance := solBalanceOf balances
            if jsLt solBalance amount then
              [.sent (.insufficientBalance (toFixed4 solBalance) (jsNumToString amount))]
            else
              let lamports := jsFloor (jsMul1e9 amount)
              .orderCall SOL_MINT tokenMint lamports wallet.address ::
                match env.getOrder SOL_MINT tokenMint lamports wallet.address with
                | .error e => [.sent (catchBuyNew e)]
                | .ok order =>
                  .signCall wallet.id ::
                    match env.signTransaction wallet.id order.transaction with
                    | .error e => [.sent (catchBuyNew e)]
                    | .ok signed =>
                      .sent .signedProcessing ::
                        .executeCall order.requestId ::
                          match env.executeOrder signed order.requestId with
                          | .error e => [.sent (catchBuyNew e)]
                          | .ok sig => [.sent (.swapSuccess sig)]

/-! ## The `/balance` handler formatting (`index.js`) -/

def balanceHeader : String := "💰 Wallet Balance:\n\n"

/-- The formatting loop of the `/balance` handler: starting from the header,
append a `token: uiAmount.toFixed(4)` line for every entry whose raw string
amount is not `"0"`. -/
def balanceMessage (balances : List (String × TokenBal)) : String :=
  balances.foldl
    (fun acc p =>
      if p.2.amount != "0" then acc ++ p.1 ++ ": " ++ toFixed4 p.2.uiAmount ++ "\n" else acc)
    balanceHeader

/-- Reference rendering of the balance lines, used to characterise
`balanceMessage`: one line per entry with raw amount ≠ "0", in order. -/
def balanceLines : List (String × TokenBal) → String
  | [] => ""
  | p :: rest =>
    (if p.2.amount != "0" then p.1 ++ ": " ++ toFixed4 p.2.uiAmount ++ "\n" else "")
      ++ balanceLines rest

/-! ## The `/start` handler (identical in both files) -/

def Mapping := UserId → Option WalletId

/-- `walletMappings[userId] = walletId` on the loaded object. -/
def updateMapping (m : Mapping) (u : UserId) (w : WalletId) : Mapping :=
  fun v => if v = u then some w else m v

/-- `saveWalletMappings`: `fs.writeFileSync` inside try/catch — a write
failure is logged and swallowed, leaving the stored file unchanged, and the
function returns normally either way. -/
def saveWalletMappings (writeOk : Bool) (stored m : Mapping) : Mapping :=
  if writeOk then m else stored

/-- Oracles for the `/start` handler: the loaded mapping file, the custody
create/get calls, and whether the mapping-file write succeeds. -/
structure StartEnv where
  stored : Mapping
  createWallet : Except JsError (WalletId × Addr)
  getWallet : WalletId → Except JsError Addr
  diskWriteOk : Bool

/-- Result of a `/start` run: messages sent, the mapping object passed to
`saveWalletMappings` (if called), and the stored file contents afterwards. -/
structure StartOutcome where
  messages : List Msg
  saveArg : Option Mapping
  stored : Mapping

/-- The `/start` handler: reuse an existing mapping (fetching the address), or
create a wallet, record the mapping, save it, and greet with the address; a
custody failure yields a distinct message and no mapping write. -/
def startHandler (env : StartEnv) (userId : UserId) : StartOutcome :=
  match env.stored userId with
  | some walletId =>
    match env.getWallet walletId with
    | .ok addr => ⟨[.welcome addr], none, env.stored⟩
    | .error _ => ⟨[.walletAccessError], none, env.stored⟩
  | none =>
    match env.createWallet with
    | .error _ => ⟨[.walletCreateError], none, env.stored⟩
    | .ok (wid, addr) =>
      let m2 := updateMapping env.stored userId wid
      ⟨[.welcome addr], some m2, saveWalletMappings env.diskWriteOk env.stored m2⟩

/-! ## The multi-turn buy flow (`oldswap.js`) -/

/-- Per-user conversation state (`userStates`): the `token_address` step, or
the `amount` step carrying the collected token mint. -/
inductive ConvState
  | awaitingToken
  | awaitingAmount (tokenMint : String)
  deriving DecidableEq

/-- The session store keyed by user id. -/
def Store := UserId → Option ConvState

/-- `userStates.set(userId, c)`. -/
def setState (s : Store) (u : UserId) (c : ConvState) : Store :=
  fun v => if v = u then some c else s v

/-- `userStates.delete(userId)`. -/
def delState (s : Store) (u : UserId) : Store :=
  fun v => if v = u then none else s v

/-- A Jupiter v6 quote response. -/
structure Quote where
  payload : String
  outAmount : JSNum
  deriving DecidableEq

/-- Oracles for the external calls of the `oldswap.js` message handler.  The
retried calls are indexed by attempt number. -/
structure OldEnv where
  walletMappings : UserId → Option WalletId
  getWallet : WalletId → Except JsError Wallet
  getBalance : Addr → Except JsError JSNum
  quoteAttempt : Nat → Except JsError Quote
  swap : Quote → Wallet → Except JsError String
  signTransaction : WalletId → String → Except JsError String
  sendRawAttempt : String → Nat → Except JsError String
  confirm : String → Except JsError Unit

/-- `getSolBalance`: `connection.getBalance` converted from lamports, with any
error caught and turned into balance 0. -/
def getSolBalance (env : OldEnv) (addr : Addr) : JSNum :=
  match env.getBalance addr with
  | .ok lamports => jsDiv1e9 lamports
  | .error _ => .fin 0

/-- The inner `catch` of the amount step (checks `0x1771`, then the structured
vendor error, then the generic apology; retry instructions say `/buy`). -/
def catchOldInner (e : JsError) : Msg :=
  if containsSub e.message "0x1771" then .slippage
  else
    match e.responseError with
    | some t => .vendorErrorOld t
    | none => .genericErrorOld

/-- The outer `catch` of the message handler (no slippage check). -/
def catchOldOuter (e : JsError) : Msg :=
  match e.responseError with
  | some t => .vendorErrorOld t
  | none => .genericErrorOld

/-- The `bot.on('message')` handler of `oldswap.js`: given the session store
and an incoming text, produce the updated store and the event trace. -/
def onMessage (env : OldEnv) (states : Store) (userId : UserId) (text : String) :
    Store × List Event :=
  match states userId with
  | none => (states, [])
  | some .awaitingToken =>
    if validPubkey text then
      (setState states userId (.awaitingAmount text), [.sent .promptAmount])
    else
      (states, [.sent .invalidToken])
  | some (.awaitingAmount tokenMint) =>
    let amount := parseFloat text
    if amountBad amount then
      (states, [.sent .invalidAmount])
    else
      match env.walletMappings userId with
      | none =>
        -- `getWallet({id: undefined})` rejects; the outer catch clears state
        (delState states userId, [.sent (catchOldOuter ⟨"missing wallet id", none⟩)])
      | some walletId =>
        match env.getWallet walletId with
        | .error e => (delState states userId, [.sent (catchOldOuter e)])
        | .ok wallet =>
          let solBalance := getSolBalance env wallet.address
          let rest : Store × List Event :=
            if jsLt solBalance amount then
              (delState states userId,
                [.sent (.insufficientBalance (toFixed4 solBalance) (jsNumToString amount))])
            else
              let lamports := jsFloor (jsMul1e9 amount)
              let rq := retry3 env.quoteAttempt
              let quoteEvents :=
                List.replicate rq.attempts (Event.quoteAttemptCall SOL_MINT tokenMint lamports)
                  ++ List.replicate rq.sleeps (Event.sleep retrySleepMs)
              match rq.result with
              | .error e => (delState states userId, quoteEvents ++ [.sent (catchOldInner e)])
              | .ok quote =>
                match env.swap quote wallet with
                | .error e =>
                  (delState states userId, quoteEvents ++ [.swapCall, .sent (catchOldInner e)])
                | .ok swapTx =>
                  match env.signTransaction wallet.id swapTx with
                  | .error e =>
                    (delState states userId,
                      quoteEvents ++ [.swapCall, .signCall wallet.id, .sent (catchOldInner e)])
                  | .ok signed =>
                    let rs := retry3 (env.sendRawAttempt signed)
                    let rawEvents :=
                      List.replicate rs.attempts Event.sendRawAttemptCall
                        ++ List.replicate rs.sleeps (Event.sleep retrySleepMs)
                    match rs.result with
                    | .error e =>
                      (delState states userId,
                        quoteEvents
                          ++ [.swapCall, .signCall wallet.id, .sent .signedProcessingOld]
                          ++ rawEvents ++ [.sent (catchOldInner e)])
                    | .ok signature =>
                      match env.confirm signature with
                      | .error e =>
                        (delState states userId,
                          quoteEvents
                            ++ [.swapCall, .signCall wallet.id, .sent .signedProcessingOld]
                            ++ rawEvents ++ [.confirmCall signature, .sent (catchOldInner e)])
                      | .ok _ =>
                        (delState states userId,
                          quoteEvents
                            ++ [.swapCall, .signCall wallet.id, .sent .signedProcessingOld]
                            ++ rawEvents
                            ++ [.confirmCall signature, .sent (.swapSuccessOld signature)])
          (rest.1, Event.getSolBalanceCall wallet.address :: rest.2)

/-! ## Bridging lemmas between the computable primitives and `ℚ` -/

lemma rat_lt_iff_blt {a b : ℚ} : a < b ↔ Rat.blt a b = true := Iff.rfl

lemma jsMul1e9_fin (q : ℚ) : jsMul1e9 (.fin q) = .fin (q * 1000000000) := by
  show JSNum.fin _ = JSNum.fin _
  congr 1
  rw [Rat.divInt_eq_div]
  push_cast
  rw [mul_div_right_comm, Rat.num_div_den]

lemma ratFloor_eq_intFloor (q : ℚ) : Rat.floor q = ⌊q⌋ := by
  rw [Rat.floor_def' q, Rat.floor_def]

lemma jsFloor_fin (q : ℚ) : jsFloor (.fin q) = .fin ((⌊q⌋ : ℤ) : ℚ) := by
  show JSNum.fin _ = JSNum.fin _
  rw [ratFloor_eq_intFloor, Rat.divInt_one]

lemma amountBad_fin_pos {q : ℚ} (hq : 0 < q) : amountBad (.fin q) = false := by
  simp only [amountBad, JSNum.isNaN, jsLe, Bool.false_or, Bool.not_eq_false']
  exact rat_lt_iff_blt.mp hq

/-! ## Concrete test fixtures -/

def usdcMint : String := "EPjFWdd5AufqSSqeM2qN1xzybapC8G4wEGGkZwyTDt1v"

def testWallet : Wallet := ⟨"w1", "addr1"⟩

/-- Balances holding 0.05 SOL (50 000 000 lamports). -/
def testBalances : List (String × TokenBal) := [("SOL", ⟨"50000000", .fin (Rat.divInt 1 20)⟩)]

def envBuy : BuyEnv where
  walletMappings := fun u => if u = 42 then some "w1" else none
  getWallet := fun _ => .ok testWallet
  getBalances := fun _ => .ok testBalances
  getOrder := fun _ _ _ _ => .ok ⟨"orderTx", "req1", .fin 0⟩
  signTransaction := fun _ _ => .ok "signedTx"
  executeOrder := fun _ _ => .ok "sig1"

def envBuyBalFail : BuyEnv :=
  { envBuy with getBalances := fun _ => .error ⟨"network down", none⟩ }

def envBuyNoSol : BuyEnv :=
  { envBuy with getBalances := fun _ => .ok [("USDC", ⟨"7000000", .fin 7⟩)] }

def envOldTest : OldEnv where
  walletMappings := fun u => if u = 42 then some "w1" else none
  getWallet := fun _ => .ok testWallet
  getBalance := fun _ => .ok (.fin 50000000)
  quoteAttempt := fun _ => .ok ⟨"q", .fin 0⟩
  swap := fun _ _ => .ok "swapTx"
  signTransaction := fun _ _ => .ok "signedTx"
  sendRawAttempt := fun _ _ => .ok "sig1"
  confirm := fun _ => .ok ()

def envOldBalFail : OldEnv :=
  { envOldTest with getBalance := fun _ => .error ⟨"rpc down", none⟩ }

def statesAmount : Store := fun u => if u = 42 then some (.awaitingAmount usdcMint) else none

def statesToken : Store := fun u => if u = 42 then some .awaitingToken else none

def envStartOk : StartEnv where
  stored := fun _ => none
  createWallet := .ok ("w1", "addr1")
  getWallet := fun _ => .ok "addr1"
  diskWriteOk := true

def envStartFailCreate : StartEnv :=
  { envStartOk with createWallet := .error ⟨"privy down", none⟩ }

def envStartNoDisk : StartEnv :=
  { envStartOk with diskWriteOk := false }

/-- Retryable call: first attempt fails, second succeeds. -/
def fRetrySecondOk : Nat → Except JsError Nat
  | 0 => .error ⟨"x", none⟩
  | _ => .ok 37

/-- Retryable call: all attempts fail. -/
def fRetryAllFail : Nat → Except JsError Nat :=
  fun _ => .error ⟨"y", some "boom"⟩

/-! ## Claim theorems -/

lemma retry3_cases {α : Type} (f : Nat → Except JsError α) :
    (∃ a, f 0 = .ok a ∧ retry3 f = ⟨.ok a, 1, 0⟩) ∨
    (∃ e a, f 0 = .error e ∧ f 1 = .ok a ∧ retry3 f = ⟨.ok a, 2, 1⟩) ∨
    (∃ e₀ e₁ a, f 0 = .error e₀ ∧ f 1 = .error e₁ ∧ f 2 = .ok a ∧ retry3 f = ⟨.ok a, 3, 2⟩) ∨
    (∃ e₀ e₁ e₂, f 0 = .error e₀ ∧ f 1 = .error e₁ ∧ f 2 = .error e₂ ∧
      retry3 f = ⟨.error e₂, 3, 2⟩) := by
  cases h0 : f 0 with
  | ok a => exact Or.inl ⟨a, rfl, by simp [retry3, retryWhile, h0]⟩
  | error e₀ =>
    cases h1 : f 1 with
    | ok a => exact Or.inr (Or.inl ⟨e₀, a, rfl, rfl, by simp [retry3, retryWhile, h0, h1]⟩)
    | error e₁ =>
      cases h2 : f 2 with
      | ok a =>
        exact Or.inr (Or.inr (Or.inl
          ⟨e₀, e₁, a, rfl, rfl, rfl, by simp [retry3, retryWhile, h0, h1, h2]⟩))
      | error e₂ =>
        exact Or.inr (Or.inr (Or.inr
          ⟨e₀, e₁, e₂, rfl, rfl, rfl, by simp [retry3, retryWhile, h0, h1, h2]⟩))

/-- **C2** (confirmed).  The retry policy wrapping the two external call sites
of the `oldswap.js` flow (`getJupiterQuote`, `connection.sendRawTransaction` —
both wrapped as `retry3` in `onMessage`) makes at most 3 attempts, sleeps a
fixed 1000 ms between consecutive attempts (one sleep fewer than attempts, no
backoff), stops at the first success, and on exhaustion propagates exactly the
final attempt's error as the single terminal error. -/
theorem retry3_policy {α : Type} (f : Nat → Except JsError α) :
    retrySleepMs = 1000 ∧
    (retry3 f).attempts ≤ 3 ∧
    (retry3 f).sleeps = (retry3 f).attempts - 1 ∧
    (∀ a, f 0 = .ok a → retry3 f = ⟨.ok a, 1, 0⟩) ∧
    (∀ e a, f 0 = .error e → f 1 = .ok a → retry3 f = ⟨.ok a, 2, 1⟩) ∧
    (∀ e₀ e₁ a, f 0 = .error e₀ → f 1 = .error e₁ → f 2 = .ok a →
      retry3 f = ⟨.ok a, 3, 2⟩) ∧
    (∀ e₀ e₁ e₂, f 0 = .error e₀ → f 1 = .error e₁ → f 2 = .error e₂ →
      retry3 f = ⟨.error e₂, 3, 2⟩) := by
  have hshape : (retry3 f).attempts ≤ 3 ∧ (retry3 f).sleeps = (retry3 f).attempts - 1 := by
    rcases retry3_cases f with ⟨a, _, h⟩ | ⟨e, a, _, _, h⟩ | ⟨e₀, e₁, a, _, _, _, h⟩ |
      ⟨e₀, e₁, e₂, _, _, _, h⟩ <;> rw [h] <;> exact ⟨by norm_num, rfl⟩
  refine ⟨rfl, hshape.1, hshape.2, ?_, ?_, ?_, ?_⟩
  · intro a h0; simp [retry3, retryWhile, h0]
  · intro e a h0 h1; simp [retry3, retryWhile, h0, h1]
  · intro e₀ e₁ a h0 h1 h2; simp [retry3, retryWhile, h0, h1, h2]
  · intro e₀ e₁ e₂ h0 h1 h2; simp [retry3, retryWhile, h0, h1, h2]

/-- Witness for C2: the policy evaluated at two concrete attempt oracles. -/
theorem retry3_policy_witness :
    retry3 fRetrySecondOk = ⟨.ok 37, 2, 1⟩ ∧
    retry3 fRetryAllFail = ⟨.error ⟨"y", some "boom"⟩, 3, 2⟩ :=
  ⟨(retry3_policy fRetrySecondOk).2.2.2.2.1 ⟨"x", none⟩ 37 rfl rfl,
   (retry3_policy fRetryAllFail).2.2.2.2.2.2 ⟨"y", some "boom"⟩ ⟨"y", some "boom"⟩
     ⟨"y", some "boom"⟩ rfl rfl rfl⟩

/-- **C4** (confirmed).  A token address that does not parse as a public key
halts both buy flows with the validation message: the single-shot handler
sends only the invalid-token message, making no balance lookup, no order
request and no mapping write, and the multi-turn handler leaves the session
store unchanged (the user stays at the token-address step). -/
theorem invalid_token_halts :
    (∀ (env : BuyEnv) (uid : UserId) (wid : WalletId) (tok amtStr : String),
      env.walletMappings uid = some wid → validPubkey tok = false →
      buyNew env uid tok amtStr = [.sent .invalidToken] ∧
      hasOrderCall (buyNew env uid tok amtStr) = false ∧
      hasBalanceCall (buyNew env uid tok amtStr) = false) ∧
    (∀ (env : OldEnv) (states : Store) (u : UserId) (text : String),
      states u = some .awaitingToken → validPubkey text = false →
      onMessage env states u text = (states, [.sent .invalidToken])) := by
  constructor
  · intro env uid wid tok amtStr hm ht
    have h : buyNew env uid tok amtStr = [.sent .invalidToken] := by
      simp [buyNew, hm, ht]
    exact ⟨h, by rw [h]; rfl, by rw [h]; rfl⟩
  · intro env states u text hs ht
    simp [onMessage, hs, ht]

/-- Witness for C4 at a concrete malformed address (contains `l`, not in the
base-58 alphabet). -/
theorem invalid_token_halts_witness :
    buyNew envBuy 42 "notavalidaddress" "0.1" = [.sent .invalidToken] ∧
    onMessage envOldTest statesToken 42 "notavalidaddress" =
      (statesToken, [.sent .invalidToken]) :=
  ⟨(invalid_token_halts.1 envBuy 42 "w1" "notavalidaddress" "0.1" (by decide) (by decide)).1,
   invalid_token_halts.2 envOldTest statesToken 42 "notavalidaddress" (by decide) (by decide)⟩

/-- **C5** counterexample.  `parseFloat("Infinity")` is positive and not NaN,
so `"Infinity"` passes the amount validation of the single-shot buy handler:
the flow performs the balance lookup (contradicting the claim that every
non-finite amount halts with a validation error before any lookup) and then
reports insufficient balance. -/
theorem infinity_amount_counterexample :
    buyNew envBuy 42 usdcMint "Infinity" =
      [.balancesCall "addr1", .sent (.insufficientBalance "0.0500" "Infinity")] ∧
    hasBalanceCall (buyNew envBuy 42 usdcMint "Infinity") = true ∧
    amountBad (parseFloat "Infinity") = false := by decide

/-- **C5** (amended).  The amount step halts with the validation message
exactly when the parsed amount is NaN or ≤ 0 (non-numeric, zero or negative
input): in both flows no balance lookup, order request, signing or submission
happens then.  A non-finite positive input such as "Infinity" is *not*
rejected by this validation. -/
theorem invalid_amount_halts :
    (∀ (env : BuyEnv) (uid : UserId) (wid : WalletId) (tok amtStr : String),
      env.walletMappings uid = some wid → validPubkey tok = true →
      amountBad (parseFloat amtStr) = true →
      buyNew env uid tok amtStr = [.sent .invalidAmount]) ∧
    (∀ (env : OldEnv) (states : Store) (u : UserId) (text tm : String),
      states u = some (.awaitingAmount tm) → amountBad (parseFloat text) = true →
      onMessage env states u text = (states, [.sent .invalidAmount])) ∧
    amountBad .nan = true ∧ amountBad (.fin 0) = true ∧ amountBad (.fin (-1)) = true ∧
    amountBad (parseFloat "Infinity") = false := by
  refine ⟨?_, ?_, by decide, by decide, by decide, by decide⟩
  · intro env uid wid tok amtStr hm ht ha
    simp [buyNew, hm, ht, ha]
  · intro env states u text tm hs ha
    simp [onMessage, hs, ha]

/-- Witness for C5 (amended) at concrete malformed amounts. -/
theorem invalid_amount_halts_witness :
    buyNew envBuy 42 usdcMint "abc" = [.sent .invalidAmount] ∧
    onMessage envOldTest statesAmount 42 "-1" = (statesAmount, [.sent .invalidAmount]) :=
  ⟨invalid_amount_halts.1 envBuy 42 "w1" usdcMint "abc" (by decide) (by decide) (by decide),
   invalid_amount_halts.2.1 envOldTest statesAmount 42 "-1" usdcMint (by decide) (by decide)⟩

lemma str_append_assoc (a b c : String) : a ++ b ++ c = a ++ (b ++ c) := by
  apply String.ext
  simp [String.data_append, List.append_assoc]

lemma balanceMessage_foldl (l : List (String × TokenBal)) (acc : String) :
    l.foldl
      (fun acc p =>
        if p.2.amount != "0" then acc ++ p.1 ++ ": " ++ toFixed4 p.2.uiAmount ++ "\n" else acc)
      acc = acc ++ balanceLines l := by
  induction l generalizing acc with
  | nil => simp [balanceLines]
  | cons p rest ih =>
    rw [List.foldl_cons, ih]
    cases h : p.2.amount != "0" with
    | false => simp [balanceLines, h]
    | true => simp [balanceLines, h, str_append_assoc]

lemma balanceLines_all_zero {l : List (String × TokenBal)}
    (h : ∀ p ∈ l, p.2.amount = "0") : balanceLines l = "" := by
  induction l with
  | nil => rfl
  | cons p rest ih =>
    have hp : p.2.amount = "0" := h p (List.mem_cons_self p rest)
    simp [balanceLines, hp, ih fun q hq => h q (List.mem_cons_of_mem p hq)]

/-- **C6** (amended).  The `/balance` response is the header followed by one
`symbol: uiAmount.toFixed(4)` line per entry whose raw amount string is not
`"0"`, in order; when every entry has raw amount `"0"` (in particular for an
empty response) the message is the bare header — there is no "no tokens
found" line anywhere in it. -/
theorem balance_rendering (balances : List (String × TokenBal)) :
    balanceMessage balances = balanceHeader ++ balanceLines balances ∧
    ((∀ p ∈ balances, p.2.amount = "0") → balanceMessage balances = balanceHeader) ∧
    containsSub (balanceMessage []) "no tokens found" = false := by
  refine ⟨balanceMessage_foldl balances balanceHeader, ?_, by decide⟩
  intro h
  rw [balanceMessage, balanceMessage_foldl, balanceLines_all_zero h, String.append_empty]

/-- **C6** counterexample.  With all-zero balances the rendered `/balance`
message is the bare header and does not contain the "no tokens found" line
the claim requires. -/
theorem no_tokens_line_counterexample :
    balanceMessage [("SOL", ⟨"0", .fin 0⟩), ("USDC", ⟨"0", .fin 0⟩)] = balanceHeader ∧
    containsSub (balanceMessage [("SOL", ⟨"0", .fin 0⟩), ("USDC", ⟨"0", .fin 0⟩)])
      "no tokens found" = false := by decide

/-- Witness for C6 (amended) at a concrete balances list. -/
theorem balance_rendering_witness :
    balanceMessage [("SOL", ⟨"12", .fin (Rat.divInt 1 20)⟩)] =
      balanceHeader ++ balanceLines [("SOL", ⟨"12", .fin (Rat.divInt 1 20)⟩)] ∧
    ((∀ p ∈ ([] : List (String × TokenBal)), p.2.amount = "0") →
      balanceMessage [] = balanceHeader) :=
  ⟨(balance_rendering [("SOL", ⟨"12", .fin (Rat.divInt 1 20)⟩)]).1,
   (balance_rendering []).2.1⟩

/-- **C1** counterexample.  A malformed amount ("abc") at the `AwaitingAmount`
step does not clear the user's state: the session-store entry stays at the
amount step, refuting the claim that an invalid amount transitions the state
back to Idle (entry absent). -/
theorem amount_state_counterexample :
    (onMessage envOldTest statesAmount 42 "abc").1 42 = some (.awaitingAmount usdcMint) ∧
    (onMessage envOldTest statesAmount 42 "abc").1 42 ≠ none := by decide

/-- **C1** (amended).  At the amount step of the multi-turn flow, a malformed
amount only re-prompts and leaves the user at the `AwaitingAmount` step
(mirroring the invalid-token re-prompt), while every run with a valid amount
— insufficient balance, quote/swap/sign/submit/confirm failure, unexpected
error, or success — clears the user's ConversationState. -/
theorem amount_step_state (env : OldEnv) (states : Store) (u : UserId) (text tm : String)
    (h : states u = some (.awaitingAmount tm)) :
    (amountBad (parseFloat text) = true →
      (onMessage env states u text).1 u = some (.awaitingAmount tm)) ∧
    (amountBad (parseFloat text) = false →
      (onMessage env states u text).1 u = none) := by
  constructor
  · intro hb
    simp [onMessage, h, hb]
  · intro hb
    simp only [onMessage, h, hb, Bool.false_eq_true, if_false]
    repeat' split
    all_goals simp [delState]

/-- Witness for C1 (amended): "0" re-prompts and keeps the state; "5" (a valid
amount, here hitting the insufficient-balance path) clears it. -/
theorem amount_step_state_witness :
    (onMessage envOldTest statesAmount 42 "0").1 42 = some (.awaitingAmount usdcMint) ∧
    (onMessage envOldTest statesAmount 42 "5").1 42 = none :=
  ⟨(amount_step_state envOldTest statesAmount 42 "0" usdcMint (by decide)).1 (by decide),
   (amount_step_state envOldTest statesAmount 42 "5" usdcMint (by decide)).2 (by decide)⟩

/-- **C3** counterexample.  `/buy <USDC mint> 0.1` with balance 0.05: the
insufficient-balance message renders the balance to 4 decimal places
("0.0500") but the requested amount in plain notation ("0.1", not "0.1000"),
refuting the claim that *both* numbers are rendered to 4 decimal places. -/
theorem amount_not_4dp_counterexample :
    buyNew envBuy 42 usdcMint "0.1" =
      [.balancesCall "addr1", .sent (.insufficientBalance "0.0500" "0.1")] ∧
    toFixed4 (parseFloat "0.1") = "0.1000" ∧
    ("0.1" : String) ≠ "0.1000" := by decide

/-- **C3** (amended).  For a user with a wallet, a valid token address and a
valid positive amount exceeding the fetched SOL balance, the single-shot buy
flow stops after the balance lookup — no order request — and sends the
insufficient-balance message with the balance rendered via `toFixed(4)` and
the amount rendered in plain JavaScript number notation. -/
theorem insufficient_balance_aborts
    (env : BuyEnv) (uid : UserId) (wid : WalletId) (tok amtStr : String) (q : ℚ)
    (wallet : Wallet) (balances : List (String × TokenBal))
    (hm : env.walletMappings uid = some wid)
    (ht : validPubkey tok = true)
    (ha : parseFloat amtStr = .fin q) (hq : 0 < q)
    (hw : env.getWallet wid = .ok wallet)
    (hb : env.getBalances wallet.address = .ok balances)
    (hlt : jsLt (solBalanceOf balances) (.fin q) = true) :
    buyNew env uid tok amtStr =
      [.balancesCall wallet.address,
        .sent (.insufficientBalance (toFixed4 (solBalanceOf balances))
          (jsNumToString (.fin q)))] ∧
    hasOrderCall (buyNew env uid tok amtStr) = false := by
  have hbad := amountBad_fin_pos hq
  have h : buyNew env uid tok amtStr =
      [.balancesCall wallet.address,
        .sent (.insufficientBalance (toFixed4 (solBalanceOf balances))
          (jsNumToString (.fin q)))] := by
    simp [buyNew, hm, ht, ha, hbad, hw, hb, hlt]
  exact ⟨h, by rw [h]; rfl⟩

/-- Witness for C3 (amended): balance 0.05, requested 0.2. -/
theorem insufficient_balance_aborts_witness :
    buyNew envBuy 42 usdcMint "0.2" =
      [.balancesCall testWallet.address,
        .sent (.insufficientBalance (toFixed4 (solBalanceOf testBalances))
          (jsNumToString (.fin (Rat.divInt 1 5))))] ∧
    hasOrderCall (buyNew envBuy 42 usdcMint "0.2") = false :=
  insufficient_balance_aborts envBuy 42 "w1" usdcMint "0.2" (Rat.divInt 1 5) testWallet
    testBalances (by decide) (by decide) (by decide) (rat_lt_iff_blt.mpr (by decide))
    rfl rfl (by decide)

/-- **C8** (confirmed).  The SOL → lamports conversion is
`Math.floor(amount * 1e9)`: the fixed integer scale 10⁹ followed by the floor,
which never rounds up (`⌊q·10⁹⌋ ≤ q·10⁹ < ⌊q·10⁹⌋ + 1`, and for positive
amounts the floor is nonnegative, i.e. truncation toward zero); and the order
request of the single-shot flow carries exactly this truncated value. -/
theorem lamports_conversion (q : ℚ) (hq : 0 < q) :
    jsFloor (jsMul1e9 (.fin q)) = .fin ((⌊q * 1000000000⌋ : ℤ) : ℚ) ∧
    ((⌊q * 1000000000⌋ : ℤ) : ℚ) ≤ q * 1000000000 ∧
    q * 1000000000 < ((⌊q * 1000000000⌋ : ℤ) : ℚ) + 1 ∧
    0 ≤ ⌊q * 1000000000⌋ ∧
    (∀ (env : BuyEnv) (uid : UserId) (wid : WalletId) (tok amtStr : String)
      (wallet : Wallet) (balances : List (String × TokenBal)),
      env.walletMappings uid = some wid → validPubkey tok = true →
      parseFloat amtStr = .fin q →
      env.getWallet wid = .ok wallet →
      env.getBalances wallet.address = .ok balances →
      jsLt (solBalanceOf balances) (.fin q) = false →
      Event.orderCall SOL_MINT tok (jsFloor (jsMul1e9 (.fin q))) wallet.address ∈
        buyNew env uid tok amtStr) := by
  refine ⟨by rw [jsMul1e9_fin, jsFloor_fin], Int.floor_le _, Int.lt_floor_add_one _,
    Int.floor_nonneg.mpr (by positivity), ?_⟩
  intro env uid wid tok amtStr wallet balances hm ht ha hw hb hlt
  have hbad := amountBad_fin_pos hq
  simp [buyNew, hm, ht, ha, hbad, hw, hb, hlt]

/-- Witness for C8 at amount 0.01 with balance 0.05. -/
theorem lamports_conversion_witness :
    (0 : ℚ) < Rat.divInt 1 100 ∧
    Event.orderCall SOL_MINT usdcMint (jsFloor (jsMul1e9 (.fin (Rat.divInt 1 100))))
        testWallet.address ∈ buyNew envBuy 42 usdcMint "0.01" :=
  ⟨rat_lt_iff_blt.mpr (by decide),
   (lamports_conversion (Rat.divInt 1 100) (rat_lt_iff_blt.mpr (by decide))).2.2.2.2 envBuy 42
     "w1" usdcMint "0.01" testWallet testBalances (by decide) (by decide) (by decide)
     rfl rfl (by decide)⟩

/-- **C9** counterexample.  In the single-shot flow a failing balance lookup
is *not* treated as balance 0: the rejection propagates to the catch and the
user receives the generic error message, not the insufficient-balance message
citing "0.0000". -/
theorem balance_lookup_failure_counterexample :
    buyNew envBuyBalFail 42 usdcMint "0.1" = [.balancesCall "addr1", .sent .genericError] ∧
    Event.sent (.insufficientBalance "0.0000" "0.1") ∉
      buyNew envBuyBalFail 42 usdcMint "0.1" := by decide

/-- **C9** (amended).  A *missing* native-asset entry is treated as balance 0
in the single-shot flow (`balances.SOL?.uiAmount || 0`), and a *failed*
lookup is treated as balance 0 only in the multi-turn flow (`getSolBalance`
catches and returns 0) — both then report insufficient balance citing
"0.0000" for every positive amount, with no order requested; in the
single-shot flow a failed lookup instead surfaces the catch-classified error
message. -/
theorem zero_balance_fallback :
    (∀ (env : BuyEnv) (uid : UserId) (wid : WalletId) (tok amtStr : String) (q : ℚ)
      (wallet : Wallet) (balances : List (String × TokenBal)),
      env.walletMappings uid = some wid → validPubkey tok = true →
      parseFloat amtStr = .fin q → 0 < q →
      env.getWallet wid = .ok wallet →
      env.getBalances wallet.address = .ok balances →
      lookupBal balances "SOL" = none →
      buyNew env uid tok amtStr =
        [.balancesCall wallet.address,
          .sent (.insufficientBalance "0.0000" (jsNumToString (.fin q)))] ∧
      hasOrderCall (buyNew env uid tok amtStr) = false) ∧
    (∀ (env : OldEnv) (states : Store) (u : UserId) (text tm : String) (q : ℚ)
      (wid : WalletId) (wallet : Wallet) (e : JsError),
      states u = some (.awaitingAmount tm) →
      parseFloat text = .fin q → 0 < q →
      env.walletMappings u = some wid →
      env.getWallet wid = .ok wallet →
      env.getBalance wallet.address = .error e →
      (onMessage env states u text).2 =
        [.getSolBalanceCall wallet.address,
          .sent (.insufficientBalance "0.0000" (jsNumToString (.fin q)))] ∧
      (onMessage env states u text).1 u = none) ∧
    (∀ (env : BuyEnv) (uid : UserId) (wid : WalletId) (tok amtStr : String) (q : ℚ)
      (wallet : Wallet) (e : JsError),
      env.walletMappings uid = some wid → validPubkey tok = true →
      parseFloat amtStr = .fin q → 0 < q →
      env.getWallet wid = .ok wallet →
      env.getBalances wallet.address = .error e →
      buyNew env uid tok amtStr = [.balancesCall wallet.address, .sent (catchBuyNew e)]) := by
  refine ⟨?_, ?_, ?_⟩
  · intro env uid wid tok amtStr q wallet balances hm ht ha hq hw hb hlook
    have hbad := amountBad_fin_pos hq
    have hblt : Rat.blt 0 q = true := rat_lt_iff_blt.mp hq
    have h : buyNew env uid tok amtStr =
        [.balancesCall wallet.address,
          .sent (.insufficientBalance "0.0000" (jsNumToString (.fin q)))] := by
      simp [buyNew, hm, ht, ha, hbad, hw, hb, solBalanceOf, hlook, jsLt, hblt,
        show toFixed4 (.fin 0) = "0.0000" from by decide]
    exact ⟨h, by rw [h]; rfl⟩
  · intro env states u text tm q wid wallet e hs ha hq hm hw he
    have hbad := amountBad_fin_pos hq
    have hblt : Rat.blt 0 q = true := rat_lt_iff_blt.mp hq
    constructor <;>
      simp [onMessage, hs, ha, hbad, hm, hw, getSolBalance, he, jsLt, hblt, delState,
        show toFixed4 (.fin 0) = "0.0000" from by decide]
  · intro env uid wid tok amtStr q wallet e hm ht ha hq hw hb
    have hbad := amountBad_fin_pos hq
    simp [buyNew, hm, ht, ha, hbad, hw, hb]

/-- Witness for C9 (amended): missing SOL entry, failing RPC lookup, and
failing Ultra balances call, each at concrete inputs. -/
theorem zero_balance_fallback_witness :
    buyNew envBuyNoSol 42 usdcMint "0.1" =
      [.balancesCall testWallet.address,
        .sent (.insufficientBalance "0.0000" (jsNumToString (.fin (Rat.divInt 1 10))))] ∧
    (onMessage envOldBalFail statesAmount 42 "0.1").1 42 = none ∧
    buyNew envBuyBalFail 42 usdcMint "0.3" =
      [.balancesCall testWallet.address, .sent (catchBuyNew ⟨"network down", none⟩)] :=
  ⟨(zero_balance_fallback.1 envBuyNoSol 42 "w1" usdcMint "0.1" (Rat.divInt 1 10) testWallet
      [("USDC", ⟨"7000000", .fin 7⟩)] (by decide) (by decide) (by decide)
      (rat_lt_iff_blt.mpr (by decide)) rfl rfl (by decide)).1,
   (zero_balance_fallback.2.1 envOldBalFail statesAmount 42 "0.1" usdcMint (Rat.divInt 1 10)
      "w1" testWallet ⟨"rpc down", none⟩ (by decide) (by decide)
      (rat_lt_iff_blt.mpr (by decide)) (by decide) rfl rfl).2,
   zero_balance_fallback.2.2 envBuyBalFail 42 "w1" usdcMint "0.3" (Rat.divInt 3 10) testWallet
      ⟨"network down", none⟩ (by decide) (by decide) (by decide)
      (rat_lt_iff_blt.mpr (by decide)) rfl rfl⟩

/-- **C7** (confirmed).  For a user with no existing mapping, `/start` is
atomic with respect to the mapping store: a successful custody create writes
exactly the `userId ↦ walletId` entry through `saveWalletMappings` (durable
whenever the file write succeeds) and greets with the returned address, while
a failed create sends the distinct creation-error message, never calls save,
and leaves the stored mapping untouched. -/
theorem start_atomicity (env : StartEnv) (uid : UserId) (h : env.stored uid = none) :
    (∀ wid addr, env.createWallet = .ok (wid, addr) →
      (startHandler env uid).messages = [.welcome addr] ∧
      (startHandler env uid).saveArg = some (updateMapping env.stored uid wid) ∧
      (env.diskWriteOk = true → (startHandler env uid).stored uid = some wid)) ∧
    (∀ e, env.createWallet = .error e →
      (startHandler env uid).messages = [.walletCreateError] ∧
      (startHandler env uid).saveArg = none ∧
      (startHandler env uid).stored = env.stored) := by
  constructor
  · intro wid addr hc
    refine ⟨?_, ?_, fun hd => ?_⟩ <;>
      simp [startHandler, h, hc, saveWalletMappings, updateMapping, *]
  · intro e hc
    refine ⟨?_, ?_, ?_⟩ <;> simp [startHandler, h, hc]

/-- Witness for C7 at concrete create-success and create-failure envs. -/
theorem start_atomicity_witness :
    (startHandler envStartOk 42).messages = [.welcome "addr1"] ∧
    (startHandler envStartOk 42).saveArg = some (updateMapping envStartOk.stored 42 "w1") ∧
    (startHandler envStartOk 42).stored 42 = some "w1" ∧
    (startHandler envStartFailCreate 42).messages = [.walletCreateError] ∧
    (startHandler envStartFailCreate 42).saveArg = none ∧
    (startHandler envStartFailCreate 42).stored = envStartFailCreate.stored :=
  ⟨((start_atomicity envStartOk 42 rfl).1 "w1" "addr1" rfl).1,
   ((start_atomicity envStartOk 42 rfl).1 "w1" "addr1" rfl).2.1,
   ((start_atomicity envStartOk 42 rfl).1 "w1" "addr1" rfl).2.2 rfl,
   ((start_atomicity envStartFailCreate 42 rfl).2 ⟨"privy down", none⟩ rfl).1,
   ((start_atomicity envStartFailCreate 42 rfl).2 ⟨"privy down", none⟩ rfl).2.1,
   ((start_atomicity envStartFailCreate 42 rfl).2 ⟨"privy down", none⟩ rfl).2.2⟩

/-- **C10** (confirmed).  `saveWalletMappings` swallows write failures: with a
failing file write, `/start` still sends the welcome message containing the
freshly created wallet address while the stored mapping file never receives
the entry — completion of `/start` does not imply durable persistence. -/
theorem save_swallows_failure (env : StartEnv) (uid : UserId) (wid : WalletId) (addr : Addr)
    (h : env.stored uid = none) (hc : env.createWallet = .ok (wid, addr))
    (hd : env.diskWriteOk = false) :
    (startHandler env uid).messages = [.welcome addr] ∧
    (startHandler env uid).stored = env.stored ∧
    (startHandler env uid).stored uid = none ∧
    (∀ stored m : Mapping, saveWalletMappings false stored m = stored) := by
  refine ⟨?_, ?_, ?_, fun _ _ => rfl⟩ <;> simp [startHandler, h, hc, hd, saveWalletMappings]

/-- Witness for C10 at the concrete failing-disk env. -/
theorem save_swallows_failure_witness :
    (startHandler envStartNoDisk 42).messages = [.welcome "addr1"] ∧
    (startHandler envStartNoDisk 42).stored 42 = none :=
  ⟨(save_swallows_failure envStartNoDisk 42 "w1" "addr1" rfl rfl rfl).1,
   (save_swallows_failure envStartNoDisk 42 "w1" "addr1" rfl rfl rfl).2.2.1⟩

end TradingBot
